import Mathlib

/-!
Shallow embedding of `src/fastertransformer/layers/attention_layers/FusedAttentionLayer.cu`
(FasterTransformer's fused multi-head attention layer) and proofs about it.

Buffer elements are modelled as `Int` (the source works on `half2` lanes; addition is
elementwise and independent per lane, so one abstract additive element type suffices and
`Int` keeps everything computable). Device buffers are modelled as total functions
`Nat → Int` from flat element index to value; a CUDA kernel becomes the list of
(address, value) writes its threads perform, applied to the initial buffer contents.
The layer object becomes an explicit state record, the device stream becomes the ordered
list of enqueued operations a forward call produces, and the external collaborators
(matmul provider, allocator, fused-MHA runner) are modelled by their call contracts.
-/

namespace FasterTransformer

/-- The writes performed by the CUDA kernel `trt_add_QKV_bias` (FusedAttentionLayer.cu,
lines 21-48), launched with `grid = valid_word_num` blocks and
`blockDim.x = head_num * size_per_head` threads per block. Each thread
`(seq_id = blockIdx.x, threadIdx.x)` computes `size_id = threadIdx.x % size_per_head`,
`head_id = (threadIdx.x - size_id) / size_per_head`,
`target_offset = blockIdx.x * head_num * 3 * size_per_head + head_id * 3 * size_per_head`
and stores the three bias-added values for Q, K, V. (In the launch the element type is
`half2` and the launcher passes `size_per_head_ / 2`, so one model element is one
`half2` lane pair; the layout statement is unaffected.) -/
def trt_add_QKV_bias (head_num size_per_head valid_word_num : Nat)
    (Q bias_Q K bias_K V bias_V : Nat → Int) : List (Nat × Int) :=
  (List.range valid_word_num).flatMap fun seq_id =>
    (List.range (head_num * size_per_head)).flatMap fun tid =>
      let size_id := tid % size_per_head
      let head_id := (tid - size_id) / size_per_head
      let target_offset := seq_id * (head_num * 3 * size_per_head) + head_id * (3 * size_per_head)
      let blockDimx := head_num * size_per_head
      [ (target_offset + 0 * size_per_head + size_id, Q (seq_id * blockDimx + tid) + bias_Q tid),
        (target_offset + 1 * size_per_head + size_id, K (seq_id * blockDimx + tid) + bias_K tid),
        (target_offset + 2 * size_per_head + size_id, V (seq_id * blockDimx + tid) + bias_V tid) ]

/-- Apply a list of device writes, in order, to an initial buffer. -/
def applyWrites (init : Nat → Int) (ws : List (Nat × Int)) : Nat → Int :=
  ws.foldl (fun buf w => Function.update buf w.1 w.2) init

/-! ## Data model: dispatcher handle, layer state, allocator, provider queries -/

/-- Model of the fused-MHA dispatch handle (`FusedMHARunnerFP16v2`). The runner class
itself is outside src/; the constructor arguments it receives are visible in src/
(`head_num_, size_per_head_, sm_, q_scaling_`; the floating-point `q_scaling` only
flows into the runner and is not modelled). Its statically supported sequence-length
tile classes are kept abstract as a list. -/
structure MHADispatcher where
  head_num : Nat
  size_per_head : Nat
  sm : Nat
  tileClasses : List Nat
deriving DecidableEq, Repr

/-- Modelled from the spec: `FusedMHARunnerFP16v2::getSFromMaxSeqLen` is missing from
src/; per spec §4.4 it maps the actual sequence length to the smallest supported tile
class ≥ that length (`none` when the length exceeds every tile class, in which case the
subsequent support check fails). -/
def MHADispatcher.getSFromMaxSeqLen (disp : MHADispatcher) (seq_len : Nat) : Option Nat :=
  (disp.tileClasses.filter (fun t => seq_len ≤ t)).min?

/-- Modelled from the spec: `FusedMHARunnerFP16v2::isValid` is missing from src/; per
spec §4.4 tile-class support of the selected kernel is static, so `isValid S` holds iff
`S` is a supported tile class. -/
def MHADispatcher.isValid (disp : MHADispatcher) (S : Nat) : Bool :=
  disp.tileClasses.contains S

/-- Hardware generation identifiers (`kSM_*`, declared outside src/; each names its CUDA
SM version number). -/
def kSM_70 : Nat := 70

def kSM_72 : Nat := 72

def kSM_75 : Nat := 75

def kSM_80 : Nat := 80

def kSM_86 : Nat := 86

/-- The mutable state of a `FusedAttentionLayer<T>` instance. Device scratch pointers
are modelled as `Option Nat` region handles (`none` = not allocated); the two derived
pointer-table aliases `batch_qkv_input_ptr_`/`batch_qkv_buf_ptr_` are fixed offsets
(+4, +8) into `batch_qkv_kernel_ptr_` and are not separate regions. -/
structure FusedAttentionLayer where
  max_batch_size : Nat
  max_seq_len : Nat
  head_num : Nat
  size_per_head : Nat
  hidden_units : Nat
  sm : Nat
  sparse : Bool
  is_free_buffer_after_forward : Bool
  is_allocate_buffer : Bool
  q_buf : Option Nat
  k_buf : Option Nat
  v_buf : Option Nat
  qkv_buf : Option Nat
  qkv_buf_2 : Option Nat
  attn_workspace : Option Nat
  batch_qkv_kernel_ptr : Option Nat
  dispatcher_fp16 : MHADispatcher
deriving DecidableEq, Repr

/-- The external device allocator (`IAllocator`), modelled as a fresh-handle counter;
requested sizes are functions of the fixed configuration and do not affect any claim. -/
structure AllocState where
  next : Nat
deriving DecidableEq, Repr

/-- `allocator_->malloc`: returns a fresh region handle. -/
def AllocState.malloc (al : AllocState) : Nat × AllocState := (al.next, ⟨al.next + 1⟩)

/-- The `FusedAttentionLayer` constructor (FusedAttentionLayer.cu lines 215-242): stores
the configuration, selects the fused-MHA dispatch handle — throwing when no
implementation matches `(sm_, size_per_head_)` — and sets
`hidden_units_ = head_num_ * size_per_head_`. The runner's static tile-class list is a
parameter of the model (the runner is external to src/). -/
def FusedAttentionLayer.construct (max_batch_size max_seq_len head_num size_per_head sm : Nat)
    (is_free_buffer_after_forward sparse : Bool) (runnerTileClasses : List Nat) :
    Except String FusedAttentionLayer :=
  if (sm == kSM_70 || sm == kSM_86 || sm == kSM_80 || sm == kSM_75 || sm == kSM_72)
      && size_per_head == 64 then
    .ok { max_batch_size, max_seq_len, head_num, size_per_head,
          hidden_units := head_num * size_per_head, sm, sparse,
          is_free_buffer_after_forward,
          is_allocate_buffer := false,
          q_buf := none, k_buf := none, v_buf := none, qkv_buf := none,
          qkv_buf_2 := none, attn_workspace := none, batch_qkv_kernel_ptr := none,
          dispatcher_fp16 := { head_num, size_per_head, sm, tileClasses := runnerTileClasses } }
  else
    .error "[FT][ERROR] FusedAttentionLayer not support \n"

/-- `FusedAttentionLayer::allocateBuffer` (lines 273-289): lazily allocates the six
scratch regions and the batched-GEMM pointer table, guarded by `is_allocate_buffer_`. -/
def FusedAttentionLayer.allocateBuffer (st : FusedAttentionLayer) (al : AllocState) :
    FusedAttentionLayer × AllocState :=
  if st.is_allocate_buffer = false then
    let (q, al) := al.malloc
    let (kb, al) := al.malloc
    let (vb, al) := al.malloc
    let (qkv, al) := al.malloc
    let (qkv2, al) := al.malloc
    let (ws, al) := al.malloc
    let (ptr, al) := al.malloc
    ({ st with q_buf := some q, k_buf := some kb, v_buf := some vb,
               qkv_buf := some qkv, qkv_buf_2 := some qkv2, attn_workspace := some ws,
               batch_qkv_kernel_ptr := some ptr, is_allocate_buffer := true }, al)
  else (st, al)

/-- `FusedAttentionLayer::freeBuffer` (lines 291-306): frees every region and clears the
flag, guarded by `is_allocate_buffer_`. -/
def FusedAttentionLayer.freeBuffer (st : FusedAttentionLayer) : FusedAttentionLayer :=
  if st.is_allocate_buffer = true then
    { st with q_buf := none, k_buf := none, v_buf := none, qkv_buf := none,
              qkv_buf_2 := none, attn_workspace := none, batch_qkv_kernel_ptr := none,
              is_allocate_buffer := false }
  else st

/-- `FusedAttentionLayer::isValidBatchSize` (lines 308-318); returns the result together
with the (possibly adopted) new state. -/
def FusedAttentionLayer.isValidBatchSize (st : FusedAttentionLayer) (batch_size : Nat) :
    Bool × FusedAttentionLayer :=
  if st.max_batch_size = 0 then
    (true, { st with max_batch_size := batch_size })
  else
    (decide (batch_size ≤ st.max_batch_size), st)

/-- `FusedAttentionLayer::isValidSeqLen` (lines 320-327); returns the result together
with the (possibly adopted) new state. -/
def FusedAttentionLayer.isValidSeqLen (st : FusedAttentionLayer) (seq_len : Nat) :
    Bool × FusedAttentionLayer :=
  let st := if st.max_seq_len = 0 then { st with max_seq_len := seq_len } else st
  (decide (seq_len ≤ st.max_seq_len) && decide (seq_len ≤ 384), st)

/-- The external matmul provider's pure eligibility queries (`cublasMMWrapper`), with
the argument lists used at the call sites `isUseSparse(1, n, m, k)` and
`isFuseBatchGemm(3, n, m, k)`. -/
structure CublasOracle where
  isUseSparse : Nat → Nat → Nat → Nat → Bool
  isFuseBatchGemm : Nat → Nat → Nat → Nat → Bool

inductive WeightRef where
  | query_kernel
  | key_kernel
  | value_kernel
  | attention_output_kernel
  | query_sp_kernel
  | key_sp_kernel
  | value_sp_kernel
  | attention_output_sp_kernel
deriving DecidableEq, Repr

inductive BufRef where
  | from_tensor
  | q_buf
  | k_buf
  | v_buf
  | qkv_buf
  | qkv_buf_2
  | attention_out
deriving DecidableEq, Repr

/-- Attention-mask element contents (a device buffer). -/
def MaskData : Type := Nat → Int

/-- One enqueued device operation, recording the arguments the layer passes to its
collaborators. `mhaRun`'s mask argument is the mask pointer the layer hands to the
fused kernel (the source passes `nullptr`, i.e. `none`). -/
inductive Op where
  | spGemm (n m k : Nat) (w : WeightRef) (inp out : BufRef)
  | memcpyPtrTable
  | batchedGemm (n m k batchCount : Nat)
  | gemm (n m k : Nat) (w : WeightRef) (inp out : BufRef)
  | trtAddQkvBias (token_num head_num size_per_head : Nat)
  | mhaSetup (S B : Nat)
  | mhaRun (qkv : BufRef) (mask : Option MaskData) (out : BufRef)

/-- The forward call's inputs, reduced to exactly what the source reads:
`input_tensors[0].shape[0]` (token count), `input_tensors[1].shape[0]` and `.shape[2]`
(attention-mask batch and sequence length), `input_tensors[2].shape[0]` (padding-offset
length), and the attention-mask element contents (read into a local in the source and
never consumed). -/
structure ForwardInputs where
  input_shape0 : Nat
  mask_shape0 : Nat
  mask_shape2 : Nat
  padding_shape0 : Nat
  attention_mask : MaskData

/-- The device operations one successful forward call enqueues (FusedAttentionLayer.cu
lines 91-208), in program order: Q/K/V projection by exactly one of the three
strategies, the bias-fusion repack kernel, the fused-MHA setup and run (mask argument
`nullptr`, batch argument `input_tensors->at(2).shape[0] - 1`), and the output
projection. `m`, `n`, `k`, `m_padded` are named and computed as in the source; the
configuration fields are passed in because the guard checks never change them. -/
def forwardTrace (hidden_units head_num size_per_head : Nat) (sparse : Bool)
    (cublas : CublasOracle) (inp : ForwardInputs) (S : Nat) : List Op :=
  let m := inp.input_shape0
  let m_tmp := if m % 8 ≠ 0 then (m / 8 + 1) * 8 else m
  let k := hidden_units
  let n := hidden_units
  let m_padded := m_tmp
  (if sparse && cublas.isUseSparse 1 n m k then
      [.spGemm n m_padded k .query_sp_kernel .from_tensor .q_buf,
       .spGemm n m_padded k .key_sp_kernel .from_tensor .k_buf,
       .spGemm n m_padded k .value_sp_kernel .from_tensor .v_buf]
    else if cublas.isFuseBatchGemm 3 n m k then
      [.memcpyPtrTable, .batchedGemm n m k 3]
    else
      [.gemm n m k .query_kernel .from_tensor .q_buf,
       .gemm n m k .key_kernel .from_tensor .k_buf,
       .gemm n m k .value_kernel .from_tensor .v_buf])
  ++ [.trtAddQkvBias m head_num size_per_head]
  ++ [.mhaSetup S (inp.padding_shape0 - 1), .mhaRun .qkv_buf none .qkv_buf_2]
  ++ [if sparse && cublas.isUseSparse 1 n m k then
        .spGemm n m_padded k .attention_output_sp_kernel .qkv_buf_2 .attention_out
      else
        .gemm n m k .attention_output_kernel .qkv_buf_2 .attention_out]

/-- `FusedAttentionLayer::forward` (lines 70-213) as a state transformer returning the
ordered list of enqueued device operations; `FT_CHECK` failures abort the call
(`none`). The compile-time `SPARSITY_ENABLED` guard is treated as compiled in (per the
spec's design note the build flag plus the runtime `sparse_` flag reduce to the runtime
flag and the provider query). `B = input_tensors->at(2).shape[0] - 1` as in the source
(natural subtraction). A `none` result of `getSFromMaxSeqLen` is the case where no tile
class fits, in which the real runner returns an unsupported sentinel and
`FT_CHECK(dispatcher_fp16->isValid(S))` aborts. -/
def FusedAttentionLayer.forward (st0 : FusedAttentionLayer) (al : AllocState)
    (cublas : CublasOracle) (inp : ForwardInputs) :
    Option (FusedAttentionLayer × AllocState × List Op) :=
  let c1 := st0.isValidBatchSize inp.mask_shape0
  if c1.1 = false then none else
  let c2 := c1.2.isValidSeqLen inp.mask_shape2
  if c2.1 = false then none else
  let pa := c2.2.allocateBuffer al
  let st := pa.1
  match st.dispatcher_fp16.getSFromMaxSeqLen inp.mask_shape2 with
  | none => none
  | some S =>
    if st.dispatcher_fp16.isValid S = false then none else
    let stF := if st.is_free_buffer_after_forward then st.freeBuffer else st
    some (stF, pa.2,
      forwardTrace st.hidden_units st.head_num st.size_per_head st.sparse cublas inp S)

/-! ## Trace observables and auxiliary state predicates -/

/-- The padded row count the forward call computes (lines 91-94, 100): the token count
rounded up to the next multiple of 8 when it is not already one. -/
def paddedRows (m : Nat) : Nat := if m % 8 ≠ 0 then (m / 8 + 1) * 8 else m

/-- The trace takes the structured-sparse Q/K/V path iff it contains a sparse matmul
writing the Q projection buffer. -/
def usesSparseQkvPath (tr : List Op) : Bool :=
  tr.any fun op => match op with
    | .spGemm _ _ _ _ _ out => out == BufRef.q_buf
    | _ => false

/-- The trace takes the batched Q/K/V path iff it contains a batched matmul. -/
def usesBatchedQkvPath (tr : List Op) : Bool :=
  tr.any fun op => match op with
    | .batchedGemm _ _ _ _ => true
    | _ => false

/-- The trace takes the dense Q/K/V path iff it contains a dense matmul writing the Q
projection buffer. -/
def usesDenseQkvPath (tr : List Op) : Bool :=
  tr.any fun op => match op with
    | .gemm _ _ _ _ _ out => out == BufRef.q_buf
    | _ => false

/-- The row-count (second dimension) arguments of all sparse matmul calls in a trace. -/
def spGemmRowArgs (tr : List Op) : List Nat :=
  tr.filterMap fun op => match op with
    | .spGemm _ m _ _ _ _ => some m
    | _ => none

/-- Fold a sequence of batch-size checks through the layer state. -/
def runBatchChecks (st : FusedAttentionLayer) (ns : List Nat) : FusedAttentionLayer :=
  ns.foldl (fun s n => (s.isValidBatchSize n).2) st

/-- Fold a sequence of sequence-length checks through the layer state. -/
def runSeqChecks (st : FusedAttentionLayer) (ns : List Nat) : FusedAttentionLayer :=
  ns.foldl (fun s n => (s.isValidSeqLen n).2) st

/-- All six scratch regions and the pointer table hold valid handles. -/
def buffersAllocated (st : FusedAttentionLayer) : Prop :=
  st.q_buf.isSome ∧ st.k_buf.isSome ∧ st.v_buf.isSome ∧ st.qkv_buf.isSome ∧
  st.qkv_buf_2.isSome ∧ st.attn_workspace.isSome ∧ st.batch_qkv_kernel_ptr.isSome

/-- No scratch region nor the pointer table holds a handle. -/
def buffersFreed (st : FusedAttentionLayer) : Prop :=
  st.q_buf = none ∧ st.k_buf = none ∧ st.v_buf = none ∧ st.qkv_buf = none ∧
  st.qkv_buf_2 = none ∧ st.attn_workspace = none ∧ st.batch_qkv_kernel_ptr = none

/-- The all-or-none scratch invariant, governed by the single `is_allocate_buffer_`
flag. -/
def bufferInvariant (st : FusedAttentionLayer) : Prop :=
  (st.is_allocate_buffer = true → buffersAllocated st) ∧
  (st.is_allocate_buffer = false → buffersFreed st)

/-- The configuration fields of the layer state that no operation may change. -/
def cfg (st : FusedAttentionLayer) : Nat × Nat × Nat × Bool × Bool × MHADispatcher :=
  (st.head_num, st.size_per_head, st.hidden_units, st.sparse,
   st.is_free_buffer_after_forward, st.dispatcher_fp16)

/-! ## Concrete instances used to instantiate theorems -/

/-- A concrete layer state with both capacity bounds unset. -/
def sampleLayer : FusedAttentionLayer :=
  { max_batch_size := 0, max_seq_len := 0, head_num := 12, size_per_head := 64,
    hidden_units := 768, sm := 80, sparse := false,
    is_free_buffer_after_forward := false, is_allocate_buffer := false,
    q_buf := none, k_buf := none, v_buf := none, qkv_buf := none, qkv_buf_2 := none,
    attn_workspace := none, batch_qkv_kernel_ptr := none,
    dispatcher_fp16 := { head_num := 12, size_per_head := 64, sm := 80,
                         tileClasses := [64, 96, 128, 192, 256, 384] } }

/-- A concrete layer state with both capacity bounds set. -/
def cexLayer : FusedAttentionLayer :=
  { max_batch_size := 1, max_seq_len := 128, head_num := 2, size_per_head := 64,
    hidden_units := 128, sm := 80, sparse := false,
    is_free_buffer_after_forward := false, is_allocate_buffer := false,
    q_buf := none, k_buf := none, v_buf := none, qkv_buf := none, qkv_buf_2 := none,
    attn_workspace := none, batch_qkv_kernel_ptr := none,
    dispatcher_fp16 := { head_num := 2, size_per_head := 64, sm := 80,
                         tileClasses := [128, 192, 256, 384] } }

/-- A provider that reports no shape as sparsity- or batching-favorable. -/
def cexOracle : CublasOracle :=
  { isUseSparse := fun _ _ _ _ => false, isFuseBatchGemm := fun _ _ _ _ => false }

/-- Inputs with a padding-offset array of shape `[2·batch + 1]` (batch 1, offsets
length 3): the comment in the source allows `batch * 2 + 1`. -/
def cexInputs : ForwardInputs :=
  { input_shape0 := 8, mask_shape0 := 1, mask_shape2 := 128, padding_shape0 := 3,
    attention_mask := fun _ => 0 }

/-- Inputs with a padding-offset array of shape `[batch + 1]` (batch 1, offsets
length 2). -/
def cexInputs2 : ForwardInputs :=
  { input_shape0 := 8, mask_shape0 := 1, mask_shape2 := 128, padding_shape0 := 2,
    attention_mask := fun _ => 0 }

/-- The layer state after `cexLayer` allocates its scratch regions from a fresh
allocator. -/
def cexLayerAllocated : FusedAttentionLayer :=
  { cexLayer with q_buf := some 0, k_buf := some 1, v_buf := some 2, qkv_buf := some 3,
                  qkv_buf_2 := some 4, attn_workspace := some 5,
                  batch_qkv_kernel_ptr := some 6, is_allocate_buffer := true }

/-- The operation sequence `cexLayer.forward` enqueues on `cexInputs` (dense path,
token count 8, tile class 128, batch argument `3 - 1 = 2`). -/
def cexTrace : List Op :=
  [.gemm 128 8 128 .query_kernel .from_tensor .q_buf,
   .gemm 128 8 128 .key_kernel .from_tensor .k_buf,
   .gemm 128 8 128 .value_kernel .from_tensor .v_buf,
   .trtAddQkvBias 8 2 64,
   .mhaSetup 128 2,
   .mhaRun .qkv_buf none .qkv_buf_2,
   .gemm 128 8 128 .attention_output_kernel .qkv_buf_2 .attention_out]

/-- A provider that reports every shape as sparsity-favorable and none as
batch-favorable. -/
def spOracle : CublasOracle :=
  { isUseSparse := fun _ _ _ _ => true, isFuseBatchGemm := fun _ _ _ _ => false }

/-- The concrete layer with the sparsity flag enabled. -/
def spLayer : FusedAttentionLayer := { cexLayer with sparse := true }

/-- Inputs whose token count 10 is not a multiple of 8, so the sparse path must pad the
row count to 16. -/
def spInputs : ForwardInputs :=
  { input_shape0 := 10, mask_shape0 := 1, mask_shape2 := 128, padding_shape0 := 2,
    attention_mask := fun _ => 0 }

/-! ## Lemmas about the write-list semantics -/

lemma applyWrites_nil (init : Nat → Int) : applyWrites init [] = init := rfl

lemma applyWrites_cons (init : Nat → Int) (w : Nat × Int) (ws : List (Nat × Int)) :
    applyWrites init (w :: ws) = applyWrites (Function.update init w.1 w.2) ws := rfl

/-- A buffer cell not touched by any write keeps its initial value. -/
lemma applyWrites_eq_init (ws : List (Nat × Int)) :
    ∀ (init : Nat → Int) (a : Nat), (∀ p ∈ ws, p.1 ≠ a) → applyWrites init ws a = init a := by
  induction ws with
  | nil => intro init a _; rfl
  | cons w ws ih =>
    intro init a h
    rw [applyWrites_cons, ih _ a (fun p hp => h p (List.mem_cons_of_mem _ hp))]
    exact Function.update_noteq (Ne.symm (h w (List.mem_cons_self _ _))) _ _

/-- If some write sets address `a` to `v` and every write to `a` agrees on the value `v`,
the final buffer holds `v` at `a` (matches the CUDA race-freedom argument: the kernel's
writes to one address all carry the same value). -/
lemma applyWrites_eq_of_mem (ws : List (Nat × Int)) :
    ∀ (init : Nat → Int) (a : Nat) (v : Int), (a, v) ∈ ws →
      (∀ p ∈ ws, p.1 = a → p.2 = v) → applyWrites init ws a = v := by
  induction ws with
  | nil => intro _ _ _ hmem _; cases hmem
  | cons w ws ih =>
    intro init a v hmem huniq
    rw [applyWrites_cons]
    by_cases hx : ∀ p ∈ ws, p.1 ≠ a
    · have hw : w = (a, v) := by
        rcases List.mem_cons.mp hmem with h | h
        · exact h.symm
        · exact absurd rfl (hx _ h)
      rw [applyWrites_eq_init _ _ _ hx, hw]
      simp
    · push_neg at hx
      obtain ⟨p, hp, hpa⟩ := hx
      have hpv : p.2 = v := huniq p (List.mem_cons_of_mem _ hp) hpa
      have hmem' : (a, v) ∈ ws := by
        have hpe : p = (a, v) := Prod.ext hpa hpv
        exact hpe ▸ hp
      exact ih _ a v hmem' (fun q hq hqa => huniq q (List.mem_cons_of_mem _ hq) hqa)

/-- Uniqueness of Euclidean decomposition: if `M * a + r = M * b + s` with both
remainders below `M`, the quotients and remainders agree. -/
lemma euclid_unique {M a b r s : Nat} (hr : r < M) (hs : s < M)
    (h : M * a + r = M * b + s) : a = b ∧ r = s := by
  have hM : 0 < M := Nat.lt_of_le_of_lt (Nat.zero_le r) hr
  have h1 : (M * a + r) / M = a + r / M := Nat.mul_add_div hM a r
  have h2 : (M * b + s) / M = b + s / M := Nat.mul_add_div hM b s
  rw [Nat.div_eq_of_lt hr, Nat.add_zero] at h1
  rw [Nat.div_eq_of_lt hs, Nat.add_zero] at h2
  rw [h] at h1
  have hab : a = b := h1.symm.trans h2
  subst hab
  exact ⟨rfl, Nat.add_left_cancel h⟩

lemma qkv_residue_lt {H D h q d : Nat} (hh : h < H) (hq : q < 3) (hd : d < D) :
    h * (3 * D) + q * D + d < H * (3 * D) := by
  have h1 : q * D ≤ 2 * D := Nat.mul_le_mul_right D (by omega)
  have h2 : (h + 1) * (3 * D) ≤ H * (3 * D) := Nat.mul_le_mul_right (3 * D) (by omega)
  have h3 : (h + 1) * (3 * D) = h * (3 * D) + 3 * D := by ring
  linarith

/-- The flat addresses written by `trt_add_QKV_bias` decompose uniquely into
(token, head, qkv-slot, within-head) coordinates. -/
lemma qkv_addr_inj {H D s1 h1 q1 d1 s2 h2 q2 d2 : Nat}
    (hh1 : h1 < H) (hq1 : q1 < 3) (hd1 : d1 < D)
    (hh2 : h2 < H) (hq2 : q2 < 3) (hd2 : d2 < D)
    (heq : s1 * (H * 3 * D) + h1 * (3 * D) + q1 * D + d1
         = s2 * (H * 3 * D) + h2 * (3 * D) + q2 * D + d2) :
    s1 = s2 ∧ h1 = h2 ∧ q1 = q2 ∧ d1 = d2 := by
  have e0 : ∀ s h q d : Nat, s * (H * 3 * D) + h * (3 * D) + q * D + d
      = (H * (3 * D)) * s + (h * (3 * D) + q * D + d) := fun s h q d => by ring
  rw [e0 s1 h1 q1 d1, e0 s2 h2 q2 d2] at heq
  obtain ⟨hs, hrest⟩ :=
    euclid_unique (qkv_residue_lt hh1 hq1 hd1) (qkv_residue_lt hh2 hq2 hd2) heq
  have e1 : ∀ h q d : Nat, h * (3 * D) + q * D + d = D * (3 * h + q) + d :=
    fun h q d => by ring
  rw [e1 h1 q1 d1, e1 h2 q2 d2] at hrest
  obtain ⟨hy, hdd⟩ := euclid_unique hd1 hd2 hrest
  exact ⟨hs, by omega, by omega, hdd⟩

/-- Reading back one fused cell: the write list of `trt_add_QKV_bias` stores, at the
flat address of (token `s`, head `h`, slot `q`, lane `d`), the bias-added Q/K/V value. -/
lemma trt_write_cell (H D N : Nat) (Q bQ K bK V bV init : Nat → Int)
    (s h q d : Nat) (hs : s < N) (hh : h < H) (hq : q < 3) (hd : d < D) :
    applyWrites init (trt_add_QKV_bias H D N Q bQ K bK V bV)
      (s * (H * 3 * D) + h * (3 * D) + q * D + d)
      = (if q = 0 then Q else if q = 1 then K else V) (s * (H * D) + (h * D + d))
        + (if q = 0 then bQ else if q = 1 then bK else bV) (h * D + d) := by
  have hD : 0 < D := Nat.lt_of_le_of_lt (Nat.zero_le d) hd
  have htlt : h * D + d < H * D := by
    have h2 : (h + 1) * D ≤ H * D := Nat.mul_le_mul_right D (by omega)
    have h3 : (h + 1) * D = h * D + D := by ring
    linarith
  have hmod : (h * D + d) % D = d := by
    rw [Nat.mul_comm h D, Nat.mul_add_mod, Nat.mod_eq_of_lt hd]
  have hdiv : (h * D + d - d) / D = h := by
    rw [Nat.add_sub_cancel, Nat.mul_div_cancel h hD]
  apply applyWrites_eq_of_mem
  · -- the expected write is among the kernel's writes (thread (s, h * D + d))
    unfold trt_add_QKV_bias
    refine List.mem_flatMap.mpr ⟨s, List.mem_range.mpr hs, ?_⟩
    refine List.mem_flatMap.mpr ⟨h * D + d, List.mem_range.mpr htlt, ?_⟩
    simp only [hmod, hdiv]
    interval_cases q <;> simp
  · -- every kernel write to this address carries the same value
    intro p hp hpa
    unfold trt_add_QKV_bias at hp
    obtain ⟨s', hs', hp⟩ := List.mem_flatMap.mp hp
    obtain ⟨t', ht', hp⟩ := List.mem_flatMap.mp hp
    rw [List.mem_range] at hs' ht'
    have hd' : t' % D < D := Nat.mod_lt _ hD
    have hh' : t' / D < H := (Nat.div_lt_iff_lt_mul hD).mpr ht'
    have hsub : t' - t' % D = D * (t' / D) := by
      have h0 : D * (t' / D) + t' % D = t' := Nat.div_add_mod t' D
      have h1 := congrArg (· - t' % D) h0
      simpa using h1.symm
    have hhead : (t' - t' % D) / D = t' / D := by
      rw [hsub, Nat.mul_comm, Nat.mul_div_cancel _ hD]
    simp only [hhead, List.mem_cons, List.not_mem_nil, or_false] at hp
    rcases hp with hp | hp | hp
    · subst hp
      obtain ⟨hss, hhh, hqq, hdd⟩ := qkv_addr_inj hh' (by omega) hd' hh hq hd hpa
      have ht'' : t' = h * D + d := by
        have h0 := Nat.div_add_mod t' D
        rw [hhh, hdd] at h0
        rw [← h0]; ring
      rw [← hqq]
      simp [ht'', hss]
    · subst hp
      obtain ⟨hss, hhh, hqq, hdd⟩ := qkv_addr_inj hh' (by omega) hd' hh hq hd hpa
      have ht'' : t' = h * D + d := by
        have h0 := Nat.div_add_mod t' D
        rw [hhh, hdd] at h0
        rw [← h0]; ring
      rw [← hqq]
      simp [ht'', hss]
    · subst hp
      obtain ⟨hss, hhh, hqq, hdd⟩ := qkv_addr_inj hh' (by omega) hd' hh hq hd hpa
      have ht'' : t' = h * D + d := by
        have h0 := Nat.div_add_mod t' D
        rw [hhh, hdd] at h0
        rw [← h0]; ring
      rw [← hqq]
      simp [ht'', hss]

/-! ## Frame lemmas: the guard checks and buffer lifecycle never touch the
configuration fields -/

lemma cfg_isValidBatchSize (st : FusedAttentionLayer) (n : Nat) :
    cfg (st.isValidBatchSize n).2 = cfg st := by
  unfold FusedAttentionLayer.isValidBatchSize
  split <;> rfl

lemma cfg_isValidSeqLen (st : FusedAttentionLayer) (n : Nat) :
    cfg (st.isValidSeqLen n).2 = cfg st := by
  unfold FusedAttentionLayer.isValidSeqLen
  split <;> rfl

lemma cfg_allocateBuffer (st : FusedAttentionLayer) (al : AllocState) :
    cfg (st.allocateBuffer al).1 = cfg st := by
  unfold FusedAttentionLayer.allocateBuffer
  split <;> rfl

lemma cfg_freeBuffer (st : FusedAttentionLayer) :
    cfg st.freeBuffer = cfg st := by
  unfold FusedAttentionLayer.freeBuffer
  split <;> rfl

/-- The configuration-field equalities packed in a `cfg` equality. -/
lemma cfg_fields {a b : FusedAttentionLayer} (h : cfg a = cfg b) :
    a.head_num = b.head_num ∧ a.size_per_head = b.size_per_head ∧
    a.hidden_units = b.hidden_units ∧ a.sparse = b.sparse ∧
    a.is_free_buffer_after_forward = b.is_free_buffer_after_forward ∧
    a.dispatcher_fp16 = b.dispatcher_fp16 := by
  simpa [cfg, Prod.ext_iff] using h

lemma freeBuffer_dispatcher (st : FusedAttentionLayer) :
    st.freeBuffer.dispatcher_fp16 = st.dispatcher_fp16 :=
  (cfg_fields (cfg_freeBuffer st)).2.2.2.2.2

/-- Configuration is unchanged through both guard checks and the allocation, i.e. from
the entry of a forward call to the point the device work is enqueued. -/
lemma cfg_guard_alloc (st0 : FusedAttentionLayer) (inp : ForwardInputs) (al : AllocState) :
    cfg (((st0.isValidBatchSize inp.mask_shape0).2.isValidSeqLen
      inp.mask_shape2).2.allocateBuffer al).1 = cfg st0 := by
  rw [cfg_allocateBuffer, cfg_isValidSeqLen, cfg_isValidBatchSize]

/-- What the tile-class mapping guarantees when it returns a class. -/
lemma getSFromMaxSeqLen_spec {disp : MHADispatcher} {n S : Nat}
    (h : disp.getSFromMaxSeqLen n = some S) :
    S ∈ disp.tileClasses ∧ n ≤ S ∧ ∀ t ∈ disp.tileClasses, n ≤ t → S ≤ t := by
  unfold MHADispatcher.getSFromMaxSeqLen at h
  rw [List.min?_eq_some_iff'] at h
  obtain ⟨hmem, hle⟩ := h
  rw [List.mem_filter] at hmem
  refine ⟨hmem.1, by simpa using hmem.2, ?_⟩
  intro t ht hn
  exact hle t (List.mem_filter.mpr ⟨ht, by simpa using hn⟩)

/-- Elimination principle for a successful forward call: the tile-class mapping
succeeded, the mapped class passed the support check, the enqueued trace is
`forwardTrace` over the entry configuration, and the dispatch handle is unchanged. -/
lemma forward_some_elim {st0 : FusedAttentionLayer} {al : AllocState} {cublas : CublasOracle}
    {inp : ForwardInputs} {out : FusedAttentionLayer × AllocState × List Op}
    (h : st0.forward al cublas inp = some out) :
    ∃ S, st0.dispatcher_fp16.getSFromMaxSeqLen inp.mask_shape2 = some S ∧
      st0.dispatcher_fp16.isValid S = true ∧
      out.2.2 = forwardTrace st0.hidden_units st0.head_num st0.size_per_head st0.sparse
        cublas inp S ∧
      out.1.dispatcher_fp16 = st0.dispatcher_fp16 := by
  obtain ⟨hhn, hsph, hhu, hsp, hfr, hdi⟩ := cfg_fields (cfg_guard_alloc st0 inp al)
  simp only [FusedAttentionLayer.forward] at h
  rw [hhu, hhn, hsph, hsp, hfr, hdi] at h
  split at h
  · exact absurd h (by simp)
  · split at h
    · exact absurd h (by simp)
    · split at h
      · exact absurd h (by simp)
      · rename_i S hS
        split at h
        · exact absurd h (by simp)
        · rename_i hvalid
          have hout := Option.some.inj h
          subst hout
          refine ⟨S, hS, by simpa using hvalid, rfl, ?_⟩
          split
          · rw [freeBuffer_dispatcher]
            exact hdi
          · exact hdi

/-! ## Lemmas about the enqueued trace -/

lemma usesSparse_forwardTrace (hu hn sph : Nat) (sparse : Bool) (cublas : CublasOracle)
    (inp : ForwardInputs) (S : Nat) :
    usesSparseQkvPath (forwardTrace hu hn sph sparse cublas inp S)
      = (sparse && cublas.isUseSparse 1 hu inp.input_shape0 hu) := by
  unfold forwardTrace usesSparseQkvPath
  by_cases h1 : (sparse && cublas.isUseSparse 1 hu inp.input_shape0 hu) = true
  · simp [h1]
  · rw [Bool.not_eq_true] at h1
    by_cases h2 : cublas.isFuseBatchGemm 3 hu inp.input_shape0 hu = true
    · simp [h1, h2]
    · rw [Bool.not_eq_true] at h2
      simp [h1, h2]

lemma usesBatched_forwardTrace (hu hn sph : Nat) (sparse : Bool) (cublas : CublasOracle)
    (inp : ForwardInputs) (S : Nat) :
    usesBatchedQkvPath (forwardTrace hu hn sph sparse cublas inp S)
      = (!(sparse && cublas.isUseSparse 1 hu inp.input_shape0 hu)
          && cublas.isFuseBatchGemm 3 hu inp.input_shape0 hu) := by
  unfold forwardTrace usesBatchedQkvPath
  by_cases h1 : (sparse && cublas.isUseSparse 1 hu inp.input_shape0 hu) = true
  · simp [h1]
  · rw [Bool.not_eq_true] at h1
    by_cases h2 : cublas.isFuseBatchGemm 3 hu inp.input_shape0 hu = true
    · simp [h1, h2]
    · rw [Bool.not_eq_true] at h2
      simp [h1, h2]

lemma usesDense_forwardTrace (hu hn sph : Nat) (sparse : Bool) (cublas : CublasOracle)
    (inp : ForwardInputs) (S : Nat) :
    usesDenseQkvPath (forwardTrace hu hn sph sparse cublas inp S)
      = (!(sparse && cublas.isUseSparse 1 hu inp.input_shape0 hu)
          && !(cublas.isFuseBatchGemm 3 hu inp.input_shape0 hu)) := by
  unfold forwardTrace usesDenseQkvPath
  by_cases h1 : (sparse && cublas.isUseSparse 1 hu inp.input_shape0 hu) = true
  · simp [h1]
  · rw [Bool.not_eq_true] at h1
    by_cases h2 : cublas.isFuseBatchGemm 3 hu inp.input_shape0 hu = true
    · simp [h1, h2]
    · rw [Bool.not_eq_true] at h2
      simp [h1, h2]

lemma spGemmRowArgs_forwardTrace (hu hn sph : Nat) (sparse : Bool) (cublas : CublasOracle)
    (inp : ForwardInputs) (S : Nat) :
    spGemmRowArgs (forwardTrace hu hn sph sparse cublas inp S)
      = if sparse && cublas.isUseSparse 1 hu inp.input_shape0 hu then
          [paddedRows inp.input_shape0, paddedRows inp.input_shape0,
           paddedRows inp.input_shape0, paddedRows inp.input_shape0]
        else [] := by
  unfold forwardTrace spGemmRowArgs paddedRows
  by_cases h1 : (sparse && cublas.isUseSparse 1 hu inp.input_shape0 hu) = true
  · simp [h1]
  · rw [Bool.not_eq_true] at h1
    by_cases h2 : cublas.isFuseBatchGemm 3 hu inp.input_shape0 hu = true
    · simp [h1, h2]
    · rw [Bool.not_eq_true] at h2
      simp [h1, h2]

lemma mhaSetup_mem_forwardTrace (hu hn sph : Nat) (sparse : Bool) (cublas : CublasOracle)
    (inp : ForwardInputs) (S : Nat) :
    Op.mhaSetup S (inp.padding_shape0 - 1) ∈ forwardTrace hu hn sph sparse cublas inp S := by
  unfold forwardTrace
  simp

lemma mhaRun_mask_none_forwardTrace (hu hn sph : Nat) (sparse : Bool) (cublas : CublasOracle)
    (inp : ForwardInputs) (S : Nat) (q : BufRef) (mk : Option MaskData) (o : BufRef)
    (hm : Op.mhaRun q mk o ∈ forwardTrace hu hn sph sparse cublas inp S) :
    mk = none := by
  unfold forwardTrace at hm
  by_cases h1 : (sparse && cublas.isUseSparse 1 hu inp.input_shape0 hu) = true
  · simp [h1] at hm
    exact hm.2.1
  · rw [Bool.not_eq_true] at h1
    by_cases h2 : cublas.isFuseBatchGemm 3 hu inp.input_shape0 hu = true
    · simp [h1, h2] at hm
      exact hm.2.1
    · rw [Bool.not_eq_true] at h2
      simp [h1, h2] at hm
      exact hm.2.1

/-! ## Lemmas about the capacity guards and the buffer lifecycle -/

lemma runBatchChecks_max_fixed (ns : List Nat) :
    ∀ st : FusedAttentionLayer, st.max_batch_size ≠ 0 →
      (runBatchChecks st ns).max_batch_size = st.max_batch_size := by
  induction ns with
  | nil => intro st _; rfl
  | cons n ns ih =>
    intro st h
    have hstep : (st.isValidBatchSize n).2 = st := by
      simp [FusedAttentionLayer.isValidBatchSize, h]
    show (runBatchChecks (st.isValidBatchSize n).2 ns).max_batch_size = _
    rw [hstep]
    exact ih st h

lemma runSeqChecks_max_fixed (ns : List Nat) :
    ∀ st : FusedAttentionLayer, st.max_seq_len ≠ 0 →
      (runSeqChecks st ns).max_seq_len = st.max_seq_len := by
  induction ns with
  | nil => intro st _; rfl
  | cons n ns ih =>
    intro st h
    have hstep : (st.isValidSeqLen n).2 = st := by
      simp [FusedAttentionLayer.isValidSeqLen, h]
    show (runSeqChecks (st.isValidSeqLen n).2 ns).max_seq_len = _
    rw [hstep]
    exact ih st h

lemma allocateBuffer_of_allocated {st : FusedAttentionLayer} (al : AllocState)
    (h : st.is_allocate_buffer = true) : st.allocateBuffer al = (st, al) := by
  unfold FusedAttentionLayer.allocateBuffer
  rw [h]
  simp

lemma freeBuffer_of_unallocated {st : FusedAttentionLayer}
    (h : st.is_allocate_buffer = false) : st.freeBuffer = st := by
  unfold FusedAttentionLayer.freeBuffer
  rw [h]
  simp

lemma allocateBuffer_flag (st : FusedAttentionLayer) (al : AllocState) :
    (st.allocateBuffer al).1.is_allocate_buffer = true := by
  unfold FusedAttentionLayer.allocateBuffer
  split
  · rfl
  · rename_i h
    simpa using h

lemma freeBuffer_flag (st : FusedAttentionLayer) (h : st.is_allocate_buffer = true) :
    st.freeBuffer.is_allocate_buffer = false := by
  unfold FusedAttentionLayer.freeBuffer
  rw [h]
  simp

lemma allocateBuffer_result (st : FusedAttentionLayer) (al : AllocState)
    (h : st.is_allocate_buffer = false) :
    (st.allocateBuffer al).1.is_allocate_buffer = true ∧
      buffersAllocated (st.allocateBuffer al).1 := by
  unfold FusedAttentionLayer.allocateBuffer
  rw [h]
  simp [AllocState.malloc, buffersAllocated]

lemma freeBuffer_result (st : FusedAttentionLayer) (h : st.is_allocate_buffer = true) :
    st.freeBuffer.is_allocate_buffer = false ∧ buffersFreed st.freeBuffer := by
  unfold FusedAttentionLayer.freeBuffer
  rw [h]
  simp [buffersFreed]

/-! ## Claims about the capacity guards -/

/-- C3: the batch-size capacity check adopts the requested size and accepts when
`max_batch_size` is unset (zero), and otherwise accepts iff the request is within the
bound; in particular, from an unset state, checking batch 4 accepts and pins the bound,
after which a check of batch 5 fails no matter which checks happen in between. -/
theorem C3_batch_size_capacity (st : FusedAttentionLayer) (n : Nat) :
    (st.max_batch_size = 0 →
      st.isValidBatchSize n = (true, { st with max_batch_size := n })) ∧
    (st.max_batch_size ≠ 0 →
      st.isValidBatchSize n = (decide (n ≤ st.max_batch_size), st)) ∧
    (st.max_batch_size = 0 →
      (st.isValidBatchSize 4).1 = true ∧
      ∀ ns : List Nat,
        ((runBatchChecks (st.isValidBatchSize 4).2 ns).isValidBatchSize 5).1 = false) := by
  refine ⟨?_, ?_, ?_⟩
  · intro h
    simp [FusedAttentionLayer.isValidBatchSize, h]
  · intro h
    simp [FusedAttentionLayer.isValidBatchSize, h]
  · intro h
    have h2 : (st.isValidBatchSize 4).2 = { st with max_batch_size := 4 } := by
      simp [FusedAttentionLayer.isValidBatchSize, h]
    refine ⟨by simp [FusedAttentionLayer.isValidBatchSize, h], ?_⟩
    intro ns
    rw [h2]
    have h4 : (runBatchChecks { st with max_batch_size := 4 } ns).max_batch_size = 4 :=
      runBatchChecks_max_fixed ns _ (by simp)
    simp [FusedAttentionLayer.isValidBatchSize, h4]

/-- Witness for C3: from the unset sample configuration, batch 4 is accepted, and after
two further checks batch 5 is rejected. -/
theorem C3_batch_size_capacity_witness :
    (sampleLayer.isValidBatchSize 4).1 = true ∧
    ((runBatchChecks (sampleLayer.isValidBatchSize 4).2 [2, 7]).isValidBatchSize 5).1
      = false := by
  have h := (C3_batch_size_capacity sampleLayer 4).2.2 (by decide)
  exact ⟨h.1, h.2 [2, 7]⟩

/-- C4: the sequence-length check adopts the request when `max_seq_len` is unset; it
accepts iff the length is within the (post-adoption) bound and within the absolute
ceiling 384; any call with length 385 is rejected regardless of configuration. -/
theorem C4_seq_len_capacity (st : FusedAttentionLayer) (n : Nat) :
    (st.max_seq_len = 0 → (st.isValidSeqLen n).2 = { st with max_seq_len := n }) ∧
    (st.max_seq_len ≠ 0 → (st.isValidSeqLen n).2 = st) ∧
    ((st.isValidSeqLen n).1 = true ↔
      n ≤ (st.isValidSeqLen n).2.max_seq_len ∧ n ≤ 384) ∧
    (st.isValidSeqLen 385).1 = false := by
  refine ⟨?_, ?_, ?_, ?_⟩
  · intro h
    simp [FusedAttentionLayer.isValidSeqLen, h]
  · intro h
    simp [FusedAttentionLayer.isValidSeqLen, h]
  · by_cases h : st.max_seq_len = 0 <;> simp [FusedAttentionLayer.isValidSeqLen, h]
  · by_cases h : st.max_seq_len = 0 <;> simp [FusedAttentionLayer.isValidSeqLen, h]

/-- Witness for C4: 385 is rejected both with an unset bound and with a set bound. -/
theorem C4_seq_len_capacity_witness :
    (sampleLayer.isValidSeqLen 385).1 = false ∧ (cexLayer.isValidSeqLen 385).1 = false :=
  ⟨(C4_seq_len_capacity sampleLayer 385).2.2.2, (C4_seq_len_capacity cexLayer 385).2.2.2⟩

/-- C9: with `max_seq_len` unset, a rejected check of a length `n > 384` still
permanently pins `max_seq_len` to `n` (no later check unpins it), and any later check
with `m ≤ 384` then passes: a rejected call is not state-preserving. -/
theorem C9_rejected_seq_check_mutates (st : FusedAttentionLayer) (n : Nat)
    (h0 : st.max_seq_len = 0) (hn : 384 < n) :
    (st.isValidSeqLen n).1 = false ∧
    (st.isValidSeqLen n).2.max_seq_len = n ∧
    (∀ ns : List Nat, (runSeqChecks (st.isValidSeqLen n).2 ns).max_seq_len = n) ∧
    (∀ m : Nat, m ≤ 384 → ((st.isValidSeqLen n).2.isValidSeqLen m).1 = true) := by
  have h2 : (st.isValidSeqLen n).2 = { st with max_seq_len := n } := by
    simp [FusedAttentionLayer.isValidSeqLen, h0]
  refine ⟨?_, ?_, ?_, ?_⟩
  · simp [FusedAttentionLayer.isValidSeqLen, h0]
    omega
  · rw [h2]
  · intro ns
    rw [h2]
    have := runSeqChecks_max_fixed ns { st with max_seq_len := n } (by simp; omega)
    simpa using this
  · intro m hm
    rw [h2]
    have hne : ¬(n = 0) := by omega
    simp [FusedAttentionLayer.isValidSeqLen, hne]
    omega

/-- Witness for C9: the sample layer rejects 500 but the rejected call pins the bound,
so 100 is subsequently accepted. -/
theorem C9_rejected_seq_check_mutates_witness :
    (sampleLayer.isValidSeqLen 500).1 = false ∧
    ((sampleLayer.isValidSeqLen 500).2.isValidSeqLen 100).1 = true := by
  have h := C9_rejected_seq_check_mutates sampleLayer 500 (by decide) (by decide)
  exact ⟨h.1, h.2.2.2 100 (by decide)⟩

/-- C5: the scratch-buffer lifecycle is idempotent and all-or-none: a second
`allocateBuffer` in a row is a no-op (same layer and allocator state as calling it
once); `freeBuffer` when unallocated is a no-op; allocate→free→allocate lands back in a
valid allocated state; and the single `is_allocate_buffer_` flag governs validity of all
six scratch regions plus the pointer table (the all-or-none invariant is preserved by
both operations). -/
theorem C5_buffer_lifecycle (st : FusedAttentionLayer) (al : AllocState) :
    ((st.allocateBuffer al).1.allocateBuffer (st.allocateBuffer al).2
        = st.allocateBuffer al) ∧
    (st.is_allocate_buffer = false → st.freeBuffer = st) ∧
    (((st.allocateBuffer al).1.freeBuffer.allocateBuffer
        (st.allocateBuffer al).2).1.is_allocate_buffer = true ∧
      buffersAllocated ((st.allocateBuffer al).1.freeBuffer.allocateBuffer
        (st.allocateBuffer al).2).1) ∧
    (bufferInvariant st → bufferInvariant (st.allocateBuffer al).1) ∧
    (bufferInvariant st → bufferInvariant st.freeBuffer) := by
  refine ⟨?_, ?_, ?_, ?_, ?_⟩
  · rw [allocateBuffer_of_allocated _ (allocateBuffer_flag st al)]
  · exact freeBuffer_of_unallocated
  · exact allocateBuffer_result _ _ (freeBuffer_flag _ (allocateBuffer_flag st al))
  · intro hinv
    by_cases hb : st.is_allocate_buffer = false
    · obtain ⟨hf, hall⟩ := allocateBuffer_result st al hb
      refine ⟨fun _ => hall, fun hc => ?_⟩
      rw [hf] at hc
      cases hc
    · rw [Bool.not_eq_false] at hb
      rw [allocateBuffer_of_allocated al hb]
      exact hinv
  · intro hinv
    by_cases hb : st.is_allocate_buffer = true
    · obtain ⟨hf, hfree⟩ := freeBuffer_result st hb
      refine ⟨fun hc => ?_, fun _ => hfree⟩
      rw [hf] at hc
      cases hc
    · rw [Bool.not_eq_true] at hb
      rw [freeBuffer_of_unallocated hb]
      exact hinv

/-- Witness for C5 on the sample layer: idempotent double allocation, no-op free when
unallocated, and the invariant after a first allocation. -/
theorem C5_buffer_lifecycle_witness :
    (sampleLayer.allocateBuffer ⟨0⟩).1.allocateBuffer (sampleLayer.allocateBuffer ⟨0⟩).2
      = sampleLayer.allocateBuffer ⟨0⟩ ∧
    sampleLayer.freeBuffer = sampleLayer ∧
    bufferInvariant (sampleLayer.allocateBuffer ⟨0⟩).1 := by
  have h := C5_buffer_lifecycle sampleLayer ⟨0⟩
  exact ⟨h.1, h.2.1 (by decide),
    h.2.2.2.1 ⟨fun hc => absurd hc (by decide),
               fun _ => ⟨rfl, rfl, rfl, rfl, rfl, rfl, rfl⟩⟩⟩

/-- C6: construction selects the attention kernel strictly from (hardware generation,
per-head dimension): it succeeds iff `sm ∈ {70, 72, 75, 80, 86}` and the per-head
dimension is 64, failing fatally otherwise; on success the dispatch handle is fully
determined by the construction configuration and no subsequent operation (guard checks,
buffer lifecycle, forward) changes it. -/
theorem C6_construction_dispatch (mb ms hn sph sm : Nat) (fr sp : Bool) (tc : List Nat) :
    ((∃ st, FusedAttentionLayer.construct mb ms hn sph sm fr sp tc = .ok st) ↔
      ((sm = 70 ∨ sm = 72 ∨ sm = 75 ∨ sm = 80 ∨ sm = 86) ∧ sph = 64)) ∧
    (∀ st, FusedAttentionLayer.construct mb ms hn sph sm fr sp tc = .ok st →
      st.dispatcher_fp16 = ⟨hn, sph, sm, tc⟩ ∧
      (∀ al, (st.allocateBuffer al).1.dispatcher_fp16 = st.dispatcher_fp16) ∧
      st.freeBuffer.dispatcher_fp16 = st.dispatcher_fp16 ∧
      (∀ n, (st.isValidBatchSize n).2.dispatcher_fp16 = st.dispatcher_fp16) ∧
      (∀ n, (st.isValidSeqLen n).2.dispatcher_fp16 = st.dispatcher_fp16) ∧
      (∀ al cublas inp out, st.forward al cublas inp = some out →
        out.1.dispatcher_fp16 = st.dispatcher_fp16)) := by
  constructor
  · constructor
    · rintro ⟨st, hst⟩
      unfold FusedAttentionLayer.construct at hst
      split at hst
      · rename_i hcond
        simp [kSM_70, kSM_72, kSM_75, kSM_80, kSM_86] at hcond
        tauto
      · cases hst
    · rintro ⟨hsm, hsph⟩
      have hcond : ((sm == kSM_70 || sm == kSM_86 || sm == kSM_80 || sm == kSM_75
          || sm == kSM_72) && sph == 64) = true := by
        simp [kSM_70, kSM_72, kSM_75, kSM_80, kSM_86]
        tauto
      refine ⟨{ max_batch_size := mb, max_seq_len := ms, head_num := hn,
                size_per_head := sph, hidden_units := hn * sph, sm := sm, sparse := sp,
                is_free_buffer_after_forward := fr, is_allocate_buffer := false,
                q_buf := none, k_buf := none, v_buf := none, qkv_buf := none,
                qkv_buf_2 := none, attn_workspace := none, batch_qkv_kernel_ptr := none,
                dispatcher_fp16 := ⟨hn, sph, sm, tc⟩ }, ?_⟩
      unfold FusedAttentionLayer.construct
      rw [hcond]
      simp
  · intro st hst
    unfold FusedAttentionLayer.construct at hst
    split at hst
    · have hst' := Except.ok.inj hst
      subst hst'
      refine ⟨rfl, ?_, ?_, ?_, ?_, ?_⟩
      · intro al
        exact (cfg_fields (cfg_allocateBuffer _ al)).2.2.2.2.2
      · exact freeBuffer_dispatcher _
      · intro n
        exact (cfg_fields (cfg_isValidBatchSize _ n)).2.2.2.2.2
      · intro n
        exact (cfg_fields (cfg_isValidSeqLen _ n)).2.2.2.2.2
      · intro al cublas inp out hf
        obtain ⟨S, _, _, _, hd⟩ := forward_some_elim hf
        exact hd
    · cases hst

/-- Witness for C6: SM 80 with head dimension 64 constructs, and the handle is the
configuration tuple. -/
theorem C6_construction_dispatch_witness :
    ∃ st, FusedAttentionLayer.construct 8 384 12 64 80 false false [384] = .ok st ∧
      st.dispatcher_fp16 = ⟨12, 64, 80, [384]⟩ := by
  obtain ⟨st, hst⟩ :=
    (C6_construction_dispatch 8 384 12 64 80 false false [384]).1.mpr (by decide)
  exact ⟨st, hst, ((C6_construction_dispatch 8 384 12 64 80 false false [384]).2 st hst).1⟩

/-- C1: the bias-fusion repack kernel, given projection buffers Q, K, V laid out one
row per token of `head_count × per_head_dimension` elements and per-channel bias
vectors, produces a fused buffer satisfying, for every token `s < N`, head `h < H`, and
within-head index `d < D` (flattened indices:
`fused[s][h][q][d] = fused[((s·H + h)·3 + q)·D + d]`,
`X[s][h][d] = X[(s·H + h)·D + d]`, `biasX[h][d] = biasX[h·D + d]`):
`fused[s][h][0][d] = Q[s][h][d] + biasQ[h][d]`,
`fused[s][h][1][d] = K[s][h][d] + biasK[h][d]`,
`fused[s][h][2][d] = V[s][h][d] + biasV[h][d]` —
the three bias-added per-head vectors are contiguous per (token, head) in order
{query, key, value}. -/
theorem C1_bias_fusion_repack (H D N : Nat) (Q bQ K bK V bV init : Nat → Int)
    (s h d : Nat) (hs : s < N) (hh : h < H) (hd : d < D) :
    applyWrites init (trt_add_QKV_bias H D N Q bQ K bK V bV) (((s * H + h) * 3 + 0) * D + d)
        = Q ((s * H + h) * D + d) + bQ (h * D + d) ∧
    applyWrites init (trt_add_QKV_bias H D N Q bQ K bK V bV) (((s * H + h) * 3 + 1) * D + d)
        = K ((s * H + h) * D + d) + bK (h * D + d) ∧
    applyWrites init (trt_add_QKV_bias H D N Q bQ K bK V bV) (((s * H + h) * 3 + 2) * D + d)
        = V ((s * H + h) * D + d) + bV (h * D + d) := by
  have e : ∀ q : Nat, ((s * H + h) * 3 + q) * D + d
      = s * (H * 3 * D) + h * (3 * D) + q * D + d := fun q => by ring
  have eX : (s * H + h) * D + d = s * (H * D) + (h * D + d) := by ring
  refine ⟨?_, ?_, ?_⟩
  · rw [e 0, eX]
    simpa using trt_write_cell H D N Q bQ K bK V bV init s h 0 d hs hh (by omega) hd
  · rw [e 1, eX]
    simpa using trt_write_cell H D N Q bQ K bK V bV init s h 1 d hs hh (by omega) hd
  · rw [e 2, eX]
    simpa using trt_write_cell H D N Q bQ K bK V bV init s h 2 d hs hh (by omega) hd

/-- Witness for C1 at `H = 2`, `D = 3`, `N = 2`, token 1, head 1, lane 2, with concrete
projection buffers and biases. -/
theorem C1_bias_fusion_repack_witness :
    applyWrites (fun _ => 0)
        (trt_add_QKV_bias 2 3 2 (fun i => (i : Int)) (fun _ => 5)
          (fun i => 2 * (i : Int)) (fun _ => 7) (fun i => 3 * (i : Int)) (fun _ => 9))
        (((1 * 2 + 1) * 3 + 0) * 3 + 2)
      = (fun i => (i : Int)) ((1 * 2 + 1) * 3 + 2) + (fun _ => (5 : Int)) (1 * 3 + 2) ∧
    applyWrites (fun _ => 0)
        (trt_add_QKV_bias 2 3 2 (fun i => (i : Int)) (fun _ => 5)
          (fun i => 2 * (i : Int)) (fun _ => 7) (fun i => 3 * (i : Int)) (fun _ => 9))
        (((1 * 2 + 1) * 3 + 1) * 3 + 2)
      = (fun i => 2 * (i : Int)) ((1 * 2 + 1) * 3 + 2) + (fun _ => (7 : Int)) (1 * 3 + 2) ∧
    applyWrites (fun _ => 0)
        (trt_add_QKV_bias 2 3 2 (fun i => (i : Int)) (fun _ => 5)
          (fun i => 2 * (i : Int)) (fun _ => 7) (fun i => 3 * (i : Int)) (fun _ => 9))
        (((1 * 2 + 1) * 3 + 2) * 3 + 2)
      = (fun i => 3 * (i : Int)) ((1 * 2 + 1) * 3 + 2) + (fun _ => (9 : Int)) (1 * 3 + 2) :=
  C1_bias_fusion_repack 2 3 2 (fun i => (i : Int)) (fun _ => 5) (fun i => 2 * (i : Int))
    (fun _ => 7) (fun i => 3 * (i : Int)) (fun _ => 9) (fun _ => 0) 1 1 2
    (by decide) (by decide) (by decide)

/-- C2: on every (successful) forward call exactly one of the three Q/K/V projection
strategies is enqueued, with this priority: structured-sparse iff the layer's sparsity
flag is set and the provider's `isUseSparse(1, n, m, k)` query favors the shape;
otherwise batched iff `isFuseBatchGemm(3, n, m, k)` favors fusing the three matmuls;
otherwise three independent dense matmuls. -/
theorem C2_qkv_path_selection (st : FusedAttentionLayer) (al : AllocState)
    (cublas : CublasOracle) (inp : ForwardInputs)
    (out : FusedAttentionLayer × AllocState × List Op)
    (h : st.forward al cublas inp = some out) :
    (usesSparseQkvPath out.2.2
      = (st.sparse
          && cublas.isUseSparse 1 st.hidden_units inp.input_shape0 st.hidden_units)) ∧
    (usesBatchedQkvPath out.2.2
      = (!(st.sparse
            && cublas.isUseSparse 1 st.hidden_units inp.input_shape0 st.hidden_units)
          && cublas.isFuseBatchGemm 3 st.hidden_units inp.input_shape0 st.hidden_units)) ∧
    (usesDenseQkvPath out.2.2
      = (!(st.sparse
            && cublas.isUseSparse 1 st.hidden_units inp.input_shape0 st.hidden_units)
          && !(cublas.isFuseBatchGemm 3 st.hidden_units inp.input_shape0
                st.hidden_units))) ∧
    (usesSparseQkvPath out.2.2 && usesBatchedQkvPath out.2.2) = false ∧
    (usesSparseQkvPath out.2.2 && usesDenseQkvPath out.2.2) = false ∧
    (usesBatchedQkvPath out.2.2 && usesDenseQkvPath out.2.2) = false ∧
    (usesSparseQkvPath out.2.2 || usesBatchedQkvPath out.2.2 || usesDenseQkvPath out.2.2)
      = true := by
  obtain ⟨S, hS, hval, htr, hdisp⟩ := forward_some_elim h
  rw [htr, usesSparse_forwardTrace, usesBatched_forwardTrace, usesDense_forwardTrace]
  refine ⟨rfl, rfl, rfl, ?_, ?_, ?_, ?_⟩ <;>
    cases h1 : (st.sparse
        && cublas.isUseSparse 1 st.hidden_units inp.input_shape0 st.hidden_units) <;>
      cases h2 : cublas.isFuseBatchGemm 3 st.hidden_units inp.input_shape0
          st.hidden_units <;>
        rfl

/-- Witness for C2: the concrete layer and oracle take the dense path (and only it). -/
theorem C2_qkv_path_selection_witness :
    ∃ out, FusedAttentionLayer.forward cexLayer ⟨0⟩ cexOracle cexInputs2 = some out ∧
      usesSparseQkvPath out.2.2 = false ∧ usesBatchedQkvPath out.2.2 = false ∧
      usesDenseQkvPath out.2.2 = true := by
  have h := C2_qkv_path_selection cexLayer ⟨0⟩ cexOracle cexInputs2 _ rfl
  exact ⟨_, rfl, h.1.trans (by decide), h.2.1.trans (by decide), h.2.2.1.trans (by decide)⟩

/-- C7: the padded row count is the least multiple of 8 that is ≥ the token count, and
every structured-sparse matmul the forward call enqueues — when the sparse path is
selected, the three Q/K/V projections and the output projection — uses it as the
row-count argument. -/
theorem C7_sparse_padded_row_count (st : FusedAttentionLayer) (al : AllocState)
    (cublas : CublasOracle) (inp : ForwardInputs)
    (out : FusedAttentionLayer × AllocState × List Op)
    (h : st.forward al cublas inp = some out) :
    (paddedRows inp.input_shape0 % 8 = 0 ∧
     inp.input_shape0 ≤ paddedRows inp.input_shape0 ∧
     (∀ c, c % 8 = 0 → inp.input_shape0 ≤ c → paddedRows inp.input_shape0 ≤ c)) ∧
    (∀ r ∈ spGemmRowArgs out.2.2, r = paddedRows inp.input_shape0) ∧
    ((st.sparse && cublas.isUseSparse 1 st.hidden_units inp.input_shape0 st.hidden_units)
        = true →
      spGemmRowArgs out.2.2 =
        [paddedRows inp.input_shape0, paddedRows inp.input_shape0,
         paddedRows inp.input_shape0, paddedRows inp.input_shape0]) := by
  obtain ⟨S, hS, hval, htr, hdisp⟩ := forward_some_elim h
  refine ⟨⟨?_, ?_, ?_⟩, ?_, ?_⟩
  · unfold paddedRows; split <;> omega
  · unfold paddedRows; split <;> omega
  · intro c hc hmc; unfold paddedRows; split <;> omega
  · intro r hr
    rw [htr, spGemmRowArgs_forwardTrace] at hr
    by_cases hb : (st.sparse
        && cublas.isUseSparse 1 st.hidden_units inp.input_shape0 st.hidden_units) = true
    · simp [hb] at hr
      exact hr
    · simp [hb] at hr
  · intro hb
    rw [htr, spGemmRowArgs_forwardTrace]
    simp [hb]

/-- Witness for C7: token count 10 is padded to 16, and with the sparse path selected
all four sparse matmuls carry row count 16. -/
theorem C7_sparse_padded_row_count_witness :
    (paddedRows 10 % 8 = 0 ∧ 10 ≤ paddedRows 10 ∧
      (∀ c, c % 8 = 0 → 10 ≤ c → paddedRows 10 ≤ c)) ∧
    ∃ out, FusedAttentionLayer.forward spLayer ⟨0⟩ spOracle spInputs = some out ∧
      spGemmRowArgs out.2.2 = [16, 16, 16, 16] := by
  have h := C7_sparse_padded_row_count spLayer ⟨0⟩ spOracle spInputs _ rfl
  refine ⟨h.1, _, rfl, ?_⟩
  have h2 := h.2.2 (by decide)
  rw [h2]
  decide

/-- C10: the attention-mask contents never influence a forward call: two calls on the
same state differing only in the mask buffer's element values produce identical results
(same final state, allocator state, and enqueued operation sequence with all
arguments), and the fused attention kernel is always invoked with a null mask
argument. -/
theorem C10_mask_noninterference (st : FusedAttentionLayer) (al : AllocState)
    (cublas : CublasOracle) (inp : ForwardInputs) (mask1 mask2 : MaskData) :
    st.forward al cublas { inp with attention_mask := mask1 }
      = st.forward al cublas { inp with attention_mask := mask2 } ∧
    (∀ out, st.forward al cublas inp = some out →
      ∀ q mk o, Op.mhaRun q mk o ∈ out.2.2 → mk = none) := by
  constructor
  · rfl
  · intro out h q mk o hm
    obtain ⟨S, hS, hval, htr, hdisp⟩ := forward_some_elim h
    rw [htr] at hm
    exact mhaRun_mask_none_forwardTrace _ _ _ _ _ _ _ _ _ _ hm

/-- Witness for C10 at concrete states: two mask buffers give the same call result, and
the enqueued fused-kernel run carries a null mask. -/
theorem C10_mask_noninterference_witness :
    FusedAttentionLayer.forward cexLayer ⟨0⟩ cexOracle
        { cexInputs2 with attention_mask := fun _ => 1 }
      = FusedAttentionLayer.forward cexLayer ⟨0⟩ cexOracle
        { cexInputs2 with attention_mask := fun _ => 2 } ∧
    ∃ out, FusedAttentionLayer.forward cexLayer ⟨0⟩ cexOracle cexInputs2 = some out ∧
      ∀ q mk o, Op.mhaRun q mk o ∈ out.2.2 → mk = none := by
  have h := C10_mask_noninterference cexLayer ⟨0⟩ cexOracle cexInputs2
    (fun _ => 1) (fun _ => 2)
  exact ⟨h.1, _, rfl, h.2 _ rfl⟩

/-- C8 counterexample to the claim as stated: with a padding-offset array of shape
`[2·batch + 1]` (batch 1, length 3 — allowed by the source's own input comment) the
fused kernel is configured with batch argument `3 - 1 = 2`, while the attention-mask
batch dimension is 1; no setup with the mask's batch dimension is enqueued. -/
theorem C8_counterexample :
    ∃ out, FusedAttentionLayer.forward cexLayer ⟨0⟩ cexOracle cexInputs = some out ∧
      out.2.2 = cexTrace ∧ cexInputs.mask_shape0 = 1 ∧
      Op.mhaSetup 128 2 ∈ cexTrace ∧
      (∀ S', Op.mhaSetup S' cexInputs.mask_shape0 ∉ cexTrace) := by
  refine ⟨(cexLayerAllocated, ⟨7⟩, cexTrace), rfl, rfl, rfl, ?_, ?_⟩
  · simp [cexTrace]
  · intro S' hmem
    simp [cexTrace, cexInputs] at hmem

/-- C8 (amended): on every successful forward call the sequence length is mapped to the
smallest supported tile class ≥ it, that class passes the support check (a failed
mapping or check aborts the call), and the kernel is configured for that tile class
together with `input_tensors->at(2).shape[0] - 1` — one less than the padding-offset
tensor's first dimension — which equals the attention-mask batch dimension exactly when
the offset array has shape `[batch + 1]`. -/
theorem C8_tile_class_setup (st : FusedAttentionLayer) (al : AllocState)
    (cublas : CublasOracle) (inp : ForwardInputs)
    (out : FusedAttentionLayer × AllocState × List Op)
    (h : st.forward al cublas inp = some out) :
    ∃ S, st.dispatcher_fp16.getSFromMaxSeqLen inp.mask_shape2 = some S ∧
      st.dispatcher_fp16.isValid S = true ∧
      S ∈ st.dispatcher_fp16.tileClasses ∧ inp.mask_shape2 ≤ S ∧
      (∀ t ∈ st.dispatcher_fp16.tileClasses, inp.mask_shape2 ≤ t → S ≤ t) ∧
      Op.mhaSetup S (inp.padding_shape0 - 1) ∈ out.2.2 ∧
      (inp.padding_shape0 = inp.mask_shape0 + 1 →
        Op.mhaSetup S inp.mask_shape0 ∈ out.2.2) := by
  obtain ⟨S, hS, hval, htr, hdisp⟩ := forward_some_elim h
  obtain ⟨hmem, hle, hmin⟩ := getSFromMaxSeqLen_spec hS
  refine ⟨S, hS, hval, hmem, hle, hmin, ?_, ?_⟩
  · rw [htr]
    exact mhaSetup_mem_forwardTrace _ _ _ _ _ _ _
  · intro hpad
    rw [htr]
    have hms : inp.mask_shape0 = inp.padding_shape0 - 1 := by omega
    rw [hms]
    exact mhaSetup_mem_forwardTrace _ _ _ _ _ _ _

/-- Witness for the amended C8 on a concrete call with a `[batch + 1]` offset array. -/
theorem C8_tile_class_setup_witness :
    ∃ out, FusedAttentionLayer.forward cexLayer ⟨0⟩ cexOracle cexInputs2 = some out ∧
      ∃ S, cexLayer.dispatcher_fp16.getSFromMaxSeqLen cexInputs2.mask_shape2 = some S ∧
        cexLayer.dispatcher_fp16.isValid S = true ∧
        S ∈ cexLayer.dispatcher_fp16.tileClasses ∧ cexInputs2.mask_shape2 ≤ S ∧
        (∀ t ∈ cexLayer.dispatcher_fp16.tileClasses, cexInputs2.mask_shape2 ≤ t → S ≤ t) ∧
        Op.mhaSetup S (cexInputs2.padding_shape0 - 1) ∈ out.2.2 ∧
        (cexInputs2.padding_shape0 = cexInputs2.mask_shape0 + 1 →
          Op.mhaSetup S cexInputs2.mask_shape0 ∈ out.2.2) :=
  ⟨_, rfl, C8_tile_class_setup cexLayer ⟨0⟩ cexOracle cexInputs2 _ rfl⟩

end FasterTransformer
